import Mathlib

/-
Verification development for the react-redux core: the derived-props
memoization pipeline (selectorFactory), the merge-props wrapper
(mergeProps), the mapToProps adapter proxy (wrapMapToProps), and the
useSelector hook.  Each definition is a shallow embedding of the
corresponding JavaScript function; mutable closure variables become
explicit state records threaded through the functions, and invocation
counts of the user-supplied callbacks are returned alongside results so
that "is re-invoked" claims can be stated.
-/

namespace ReactRedux

/-! ## JavaScript value model for the dependsOnOwnProps property

A mapping function object may carry a `dependsOnOwnProps` property of any
JavaScript type.  The source checks it against null and undefined and
otherwise coerces it with Boolean(); we model the property as a small
JavaScript value type with its truthiness. -/

inductive JsVal where
  | undefined
  | null
  | jsBool (b : Bool)
  | jsNum (n : Int)
  | jsStr (s : String)
  | obj
deriving DecidableEq

def JsVal.isNullOrUndefined : JsVal → Bool
  | .undefined => true
  | .null => true
  | _ => false

/-- Boolean coercion of a JavaScript value. -/
def JsVal.truthy : JsVal → Bool
  | .undefined => false
  | .null => false
  | .jsBool b => b
  | .jsNum n => n != 0
  | .jsStr s => s != ""
  | .obj => true

/-- Embedding of getDependsOnOwnProps: use the explicit flag when it is
neither null nor undefined (coerced with Boolean), otherwise infer from
the declared arity, where arity exactly 1 means no dependence. -/
def getDependsOnOwnProps (flag : JsVal) (arity : Nat) : Bool :=
  if !flag.isNullOrUndefined then flag.truthy else decide (arity ≠ 1)

/-! ## wrapMapToProps: the mapToProps adapter proxy

A user-supplied mapToProps function is a JavaScript function object with
a possible dependsOnOwnProps property (`flag`), a declared arity
(`.length`), and a body.  The body receives stateOrDispatch and an
optional second argument (none models JavaScript undefined / not
passed).  Its result may be the props object or another function (the
factory pattern); the factory result is a function object whose body
returns plain props. -/

structure InnerFn (α β π : Type) where
  flag : JsVal
  arity : Nat
  run : α → Option π → β

inductive MapResult (α β π : Type) where
  | props (b : β)
  | fn (g : InnerFn α β π)

structure OuterFn (α β π : Type) where
  flag : JsVal
  arity : Nat
  run : α → Option π → MapResult α β π

/-- The value of the mutable field proxy.mapToProps: initially the
closure detectFactoryAndVerify, afterwards either the original wrapped
function or the resolved factory result. -/
inductive ActiveMap (α β π : Type) where
  | detect
  | outerFn (f : OuterFn α β π)
  | innerFn (g : InnerFn α β π)

/-- The mutable state of one mapToPropsProxy closure: its current
mapToProps field, its dependsOnOwnProps field, and the original wrapped
function captured by the closure. -/
structure MapToPropsProxyState (α β π : Type) where
  mapToProps : ActiveMap α β π
  dependsOnOwnProps : Bool
  wrapped : OuterFn α β π

/-- Invocation counts of the two user-supplied function bodies during
one proxy call: the originally wrapped function and the resolved
factory-returned function. -/
structure ProxyTrace where
  wrappedCalls : Nat
  resolvedCalls : Nat
deriving DecidableEq

/-- Embedding of initProxySelector: a fresh proxy whose mapToProps is
detectFactoryAndVerify and whose dependsOnOwnProps starts as true (so
that detectFactoryAndVerify can get ownProps). -/
def initProxySelector (w : OuterFn α β π) : MapToPropsProxyState α β π :=
  ⟨.detect, true, w⟩

/-- Embedding of detectFactoryAndVerify.  It first points mapToProps at
the wrapped function and recomputes dependsOnOwnProps, then calls back
through the proxy (so the wrapped function receives ownProps exactly
when that recomputed flag is true).  If the result is a function, the
proxy is re-pointed at it, its dependsOnOwnProps recomputed, and the
proxy called once more. -/
def detectFactoryAndVerify (w : OuterFn α β π) (sd : α) (op? : Option π) :
    MapResult α β π × MapToPropsProxyState α β π × ProxyTrace :=
  let d1 := getDependsOnOwnProps w.flag w.arity
  match w.run sd (if d1 then op? else none) with
  | .fn g =>
    let d2 := getDependsOnOwnProps g.flag g.arity
    (.props (g.run sd (if d2 then op? else none)), ⟨.innerFn g, d2, w⟩, ⟨1, 1⟩)
  | .props b => (.props b, ⟨.outerFn w, d1, w⟩, ⟨1, 0⟩)

/-- Embedding of mapToPropsProxy: dispatch to the current mapToProps
field, passing ownProps as the second argument exactly when the current
dependsOnOwnProps field is true. -/
def mapToPropsProxy (p : MapToPropsProxyState α β π) (sd : α) (op : π) :
    MapResult α β π × MapToPropsProxyState α β π × ProxyTrace :=
  match p.mapToProps with
  | .detect => detectFactoryAndVerify p.wrapped sd (if p.dependsOnOwnProps then some op else none)
  | .outerFn f => (f.run sd (if p.dependsOnOwnProps then some op else none), p, ⟨1, 0⟩)
  | .innerFn g => (.props (g.run sd (if p.dependsOnOwnProps then some op else none)), p, ⟨0, 1⟩)

/-! ## selectorFactory: the pure final-props selector

At the selectorFactory level the two map functions are the proxies: a
callable always invoked with both arguments, plus the dependsOnOwnProps
field that handleNewProps and handleNewPropsAndNewState consult. -/

structure MapFn (α β π : Type) where
  dependsOnOwnProps : Bool
  run : α → π → β

/-- The closure variables of pureFinalPropsSelectorFactory once
hasRunAtLeastOnce is true. -/
structure SelCache (σ π sp dp mp : Type) where
  state : σ
  ownProps : π
  stateProps : sp
  dispatchProps : dp
  mergedProps : mp

/-- The construction-time parameters of pureFinalPropsSelectorFactory. -/
structure PureSelectorEnv (σ π sp dp mp δ : Type) where
  mapStateToProps : MapFn σ sp π
  mapDispatchToProps : MapFn δ dp π
  mergeProps : sp → dp → π → mp
  dispatch : δ
  areStatesEqual : σ → σ → Bool
  areOwnPropsEqual : π → π → Bool
  areStatePropsEqual : sp → sp → Bool

/-- Invocation counts of mapStateToProps, mapDispatchToProps and
mergeProps during one selector call. -/
structure SelCalls where
  mapStateCalls : Nat
  mapDispatchCalls : Nat
  mergeCalls : Nat
deriving DecidableEq

variable {σ π sp dp mp δ : Type}

/-- Embedding of handleFirstCall: compute and cache all three parts
unconditionally. -/
def handleFirstCall (env : PureSelectorEnv σ π sp dp mp δ) (firstState : σ)
    (firstOwnProps : π) : SelCache σ π sp dp mp × SelCalls :=
  let stateProps := env.mapStateToProps.run firstState firstOwnProps
  let dispatchProps := env.mapDispatchToProps.run env.dispatch firstOwnProps
  let mergedProps := env.mergeProps stateProps dispatchProps firstOwnProps
  (⟨firstState, firstOwnProps, stateProps, dispatchProps, mergedProps⟩, ⟨1, 1, 1⟩)

/-- Embedding of handleNewPropsAndNewState: mapStateToProps always,
mapDispatchToProps only when its dependsOnOwnProps field is set, merge
always.  The cache passed in already holds the new state and ownProps. -/
def handleNewPropsAndNewState (env : PureSelectorEnv σ π sp dp mp δ)
    (c : SelCache σ π sp dp mp) : SelCache σ π sp dp mp × SelCalls :=
  let stateProps := env.mapStateToProps.run c.state c.ownProps
  let (dispatchProps, dCalls) :=
    if env.mapDispatchToProps.dependsOnOwnProps then
      (env.mapDispatchToProps.run env.dispatch c.ownProps, 1)
    else (c.dispatchProps, 0)
  let mergedProps := env.mergeProps stateProps dispatchProps c.ownProps
  ({ c with
      stateProps := stateProps
      dispatchProps := dispatchProps
      mergedProps := mergedProps }, ⟨1, dCalls, 1⟩)

/-- Embedding of handleNewProps: each map function only when its
dependsOnOwnProps field is set, merge always. -/
def handleNewProps (env : PureSelectorEnv σ π sp dp mp δ)
    (c : SelCache σ π sp dp mp) : SelCache σ π sp dp mp × SelCalls :=
  let (stateProps, sCalls) :=
    if env.mapStateToProps.dependsOnOwnProps then
      (env.mapStateToProps.run c.state c.ownProps, 1)
    else (c.stateProps, 0)
  let (dispatchProps, dCalls) :=
    if env.mapDispatchToProps.dependsOnOwnProps then
      (env.mapDispatchToProps.run env.dispatch c.ownProps, 1)
    else (c.dispatchProps, 0)
  let mergedProps := env.mergeProps stateProps dispatchProps c.ownProps
  ({ c with
      stateProps := stateProps
      dispatchProps := dispatchProps
      mergedProps := mergedProps }, ⟨sCalls, dCalls, 1⟩)

/-- Embedding of handleNewState: recompute stateProps, compare with
areStatePropsEqual, and re-merge only when they actually differ. -/
def handleNewState (env : PureSelectorEnv σ π sp dp mp δ)
    (c : SelCache σ π sp dp mp) : SelCache σ π sp dp mp × SelCalls :=
  let nextStateProps := env.mapStateToProps.run c.state c.ownProps
  let statePropsChanged := !env.areStatePropsEqual nextStateProps c.stateProps
  if statePropsChanged then
    ({ c with
        stateProps := nextStateProps
        mergedProps := env.mergeProps nextStateProps c.dispatchProps c.ownProps },
      ⟨1, 0, 1⟩)
  else ({ c with stateProps := nextStateProps }, ⟨1, 0, 0⟩)

/-- Embedding of handleSubsequentCalls: compare ownProps and state with
the pluggable equality functions, record the new state and ownProps,
and dispatch on the four change combinations. -/
def handleSubsequentCalls (env : PureSelectorEnv σ π sp dp mp δ)
    (c : SelCache σ π sp dp mp) (nextState : σ) (nextOwnProps : π) :
    SelCache σ π sp dp mp × SelCalls :=
  let propsChanged := !env.areOwnPropsEqual nextOwnProps c.ownProps
  let stateChanged := !env.areStatesEqual nextState c.state
  let c0 := { c with state := nextState, ownProps := nextOwnProps }
  if propsChanged && stateChanged then handleNewPropsAndNewState env c0
  else if propsChanged then handleNewProps env c0
  else if stateChanged then handleNewState env c0
  else (c0, ⟨0, 0, 0⟩)

/-- Embedding of pureFinalPropsSelector: the Option on the cache models
hasRunAtLeastOnce; the returned merged props, the updated closure state
and the invocation counts are all produced. -/
def pureFinalPropsSelector (env : PureSelectorEnv σ π sp dp mp δ)
    (st : Option (SelCache σ π sp dp mp)) (nextState : σ) (nextOwnProps : π) :
    mp × Option (SelCache σ π sp dp mp) × SelCalls :=
  match st with
  | none =>
    let (c, k) := handleFirstCall env nextState nextOwnProps
    (c.mergedProps, some c, k)
  | some c =>
    let (c1, k) := handleSubsequentCalls env c nextState nextOwnProps
    (c1.mergedProps, some c1, k)

/-! ## mergeProps: the merge-props wrapper

The closure state of mergePropsProxy is the cached mergedProps, present
once hasRunOnce is true.  The wrapper always computes the fresh merge
result, and in pure mode keeps the previous object when the fresh one is
areMergedPropsEqual to it. -/

def mergePropsProxy (mergeProps : sp → dp → π → mp) (pure : Bool)
    (areMergedPropsEqual : mp → mp → Bool) (st : Option mp)
    (stateProps : sp) (dispatchProps : dp) (ownProps : π) : mp × Option mp :=
  let nextMergedProps := mergeProps stateProps dispatchProps ownProps
  match st with
  | some prev =>
    if !pure || !areMergedPropsEqual nextMergedProps prev then
      (nextMergedProps, some nextMergedProps)
    else (prev, some prev)
  | none => (nextMergedProps, some nextMergedProps)

/-! ## useSelector: the derived-state reader

A selector may throw; we model it as returning Except of a JavaScript
error (message and stack).  Function reference comparison (selector !==
latestSelector.current) is modelled by an identity tag on selectors.
The three useRef cells become an explicit record; reading an unset cell
yields none (JavaScript undefined). -/

structure JsError where
  message : String
  stack : String
deriving DecidableEq

structure Selector (σ V : Type) where
  id : Nat
  fn : σ → Except JsError V

/-- The three useRef cells of one mounted useSelector consumer. -/
structure ConsumerRefs (σ V : Type) where
  latestSubscriptionCallbackError : Option JsError
  latestSelector : Option (Selector σ V)
  latestSelectedState : Option V

variable {V : Type}

/-- Whether selector !== latestSelector.current: true when no selector
was recorded yet or the identity tags differ. -/
def selectorChanged (refs : ConsumerRefs σ V) (sel : Selector σ V) : Bool :=
  match refs.latestSelector with
  | some prev => decide (sel.id ≠ prev.id)
  | none => true

/-- The message of the Error built in the catch block of the render-pass
read: it embeds the thrown error's message, and when a subscription
callback error is stored, that error's stack. -/
def renderErrorMessage (err : JsError) (prevErr : Option JsError) : String :=
  match prevErr with
  | some p =>
    "An error occured while selecting the store state: " ++ err.message ++ "." ++
      "\nThe error may be correlated with this previous error:\n" ++ p.stack ++
      "\n\nOriginal stack trace:"
  | none => "An error occured while selecting the store state: " ++ err.message ++ "."

/-- Embedding of the render-pass read of useSelector (the try block):
invoke the selector on the store state exactly when the selector
reference changed or a subscription callback error is stored, otherwise
reuse the cached value.  The result is the selected value or the thrown
Error message, paired with the number of selector invocations. -/
def useSelectorRead (refs : ConsumerRefs σ V) (sel : Selector σ V) (storeState : σ) :
    Except String (Option V) × Nat :=
  if selectorChanged refs sel || refs.latestSubscriptionCallbackError.isSome then
    match sel.fn storeState with
    | .ok v => (.ok (some v), 1)
    | .error err => (.error (renderErrorMessage err refs.latestSubscriptionCallbackError), 1)
  else (.ok refs.latestSelectedState, 0)

/-- Embedding of the first layout effect: after a successful commit the
selector, the selected value and a cleared error are recorded. -/
def commitEffect (refs : ConsumerRefs σ V) (sel : Selector σ V) (selectedState : Option V) :
    ConsumerRefs σ V :=
  { refs with
      latestSelector := some sel
      latestSelectedState := selectedState
      latestSubscriptionCallbackError := none }

/-- Embedding of checkForUpdates, the subscription callback: apply the
latest committed selector to the current store state; if the result is
equalityFn-equal to the cached value, return without rendering; if it
differs, update the cache and request one re-render; if the selector
throws, store the error, leave the cache alone, and still request one
re-render.  The Nat counts forceRender invocations.  (When no selector
was ever committed, applying undefined throws a TypeError, which the
catch block stores like any other error; that branch is unreachable
because the commit effect runs before the subscription effect.) -/
def checkForUpdates (equalityFn : V → Option V → Bool) (refs : ConsumerRefs σ V)
    (storeState : σ) : ConsumerRefs σ V × Nat :=
  match refs.latestSelector with
  | none =>
    let typeError : JsError := ⟨"latestSelector.current is not a function", ""⟩
    ({ refs with latestSubscriptionCallbackError := some typeError }, 1)
  | some sel =>
    match sel.fn storeState with
    | .ok newSelectedState =>
      if equalityFn newSelectedState refs.latestSelectedState then (refs, 0)
      else ({ refs with latestSelectedState := some newSelectedState }, 1)
    | .error err => ({ refs with latestSubscriptionCallbackError := some err }, 1)

/-! ## Concrete instances used to exercise the definitions -/

/-- A pure-selector environment over Nat with a props-independent
mapDispatchToProps and shallow (here: decidable) equality functions. -/
def envW : PureSelectorEnv Nat Nat Nat Nat Nat Nat :=
  ⟨⟨true, fun s p => s + p⟩, ⟨false, fun d p => d * p⟩, fun a b c => a + b + c, 2,
    fun a b => a == b, fun a b => a == b, fun a b => a == b⟩

def cW : SelCache Nat Nat Nat Nat Nat := ⟨0, 0, 0, 0, 0⟩

/-- A factory result: arity 1, no explicit flag, so it does not depend
on own props. -/
def gInnerW : InnerFn Nat Nat Nat := ⟨.undefined, 1, fun s _ => s * 10⟩

/-- A wrapped mapToProps that returns the factory result above. -/
def wFactoryW : OuterFn Nat Nat Nat := ⟨.undefined, 2, fun _ _ => .fn gInnerW⟩

/-- A wrapped mapToProps of arity 1 (no explicit flag) whose result
records the second argument it received. -/
def arityOneRecorder : OuterFn Nat (Option Nat) Nat := ⟨.undefined, 1, fun _ op? => .props op?⟩

def selW : Selector Nat Nat := ⟨7, fun s => .ok (s + 1)⟩

def selThrowW : Selector Nat Nat := ⟨9, fun _ => .error ⟨"boom", "boomstack"⟩⟩

/-- Refs after a successful commit of selW with cached value 3. -/
def refsW : ConsumerRefs Nat Nat := ⟨none, some selW, some 3⟩

/-- Refs after a commit of selThrowW with cached value 3. -/
def refsThrowW : ConsumerRefs Nat Nat := ⟨none, some selThrowW, some 3⟩

/-- Refs holding a previously stored subscription callback error. -/
def refsPrevErrW : ConsumerRefs Nat Nat := ⟨some ⟨"prior", "priorstack"⟩, some selW, some 3⟩

/-- Appending of strings is associative (used to exhibit substrings of
the composed error message). -/
theorem string_append_assoc (a b c : String) : a ++ b ++ c = a ++ (b ++ c) := by
  rcases a with ⟨la⟩; rcases b with ⟨lb⟩; rcases c with ⟨lc⟩
  show String.mk (la ++ lb ++ lc) = String.mk (la ++ (lb ++ lc))
  rw [List.append_assoc]

/-! ## Theorems -/

/-- C6: getDependsOnOwnProps returns the Boolean coercion of the
dependsOnOwnProps property whenever that property is neither null nor
undefined; otherwise it returns true exactly when the declared arity is
not 1 (arity 1 yields false; arity 0, including variadic functions, and
arity 2 or more yield true). -/
theorem getDependsOnOwnProps_spec (flag : JsVal) (n : Nat) :
    (flag.isNullOrUndefined = false → getDependsOnOwnProps flag n = flag.truthy) ∧
    (flag.isNullOrUndefined = true → (getDependsOnOwnProps flag n = true ↔ n ≠ 1)) := by
  constructor <;> intro h <;> simp [getDependsOnOwnProps, h]

theorem getDependsOnOwnProps_spec_witness :
    getDependsOnOwnProps (JsVal.jsNum 0) 5 = false :=
  (getDependsOnOwnProps_spec (JsVal.jsNum 0) 5).1 rfl

/-- C7: the first invocation of a pure final-props selector invokes
mapStateToProps, mapDispatchToProps and mergeProps once each, whatever
the dependsOnOwnProps flags and equality functions are, caches all
inputs and outputs, and returns the merged result; every invocation
with an existing cache goes through handleSubsequentCalls. -/
theorem pureFinalPropsSelector_first_call (env : PureSelectorEnv σ π sp dp mp δ)
    (s0 : σ) (p0 : π) :
    pureFinalPropsSelector env none s0 p0 =
      (env.mergeProps (env.mapStateToProps.run s0 p0)
          (env.mapDispatchToProps.run env.dispatch p0) p0,
        some ⟨s0, p0, env.mapStateToProps.run s0 p0,
          env.mapDispatchToProps.run env.dispatch p0,
          env.mergeProps (env.mapStateToProps.run s0 p0)
            (env.mapDispatchToProps.run env.dispatch p0) p0⟩,
        ⟨1, 1, 1⟩) ∧
    ∀ (c : SelCache σ π sp dp mp) (s1 : σ) (p1 : π),
      pureFinalPropsSelector env (some c) s1 p1 =
        ((handleSubsequentCalls env c s1 p1).1.mergedProps,
          some (handleSubsequentCalls env c s1 p1).1,
          (handleSubsequentCalls env c s1 p1).2) := by
  exact ⟨rfl, fun _ _ _ => rfl⟩

/-- C4: after its first invocation, a pure merge-props wrapper returns
the previously cached merged props when the fresh merge result is
areMergedPropsEqual to it; when they differ, or when pure is false, the
fresh result replaces the cache and is returned. -/
theorem mergePropsProxy_memoization (mergeProps : sp → dp → π → mp) (pure : Bool)
    (areMergedPropsEqual : mp → mp → Bool) (prev : mp) (s : sp) (d : dp) (o : π) :
    (pure = true → areMergedPropsEqual (mergeProps s d o) prev = true →
      mergePropsProxy mergeProps pure areMergedPropsEqual (some prev) s d o =
        (prev, some prev)) ∧
    (areMergedPropsEqual (mergeProps s d o) prev = false →
      mergePropsProxy mergeProps pure areMergedPropsEqual (some prev) s d o =
        (mergeProps s d o, some (mergeProps s d o))) ∧
    (pure = false →
      mergePropsProxy mergeProps pure areMergedPropsEqual (some prev) s d o =
        (mergeProps s d o, some (mergeProps s d o))) := by
  refine ⟨fun h1 h2 => ?_, fun h1 => ?_, fun h1 => ?_⟩ <;>
    simp [mergePropsProxy, h1]
  · simp [h1, h2]

theorem mergePropsProxy_memoization_witness :
    mergePropsProxy (fun a b c => (a + b + c, 1)) true (fun x y => x.1 == y.1)
      (some (6, 0)) 1 2 3 = ((6, 0), some (6, 0)) :=
  (mergePropsProxy_memoization (fun a b c => (a + b + c, 1)) true
    (fun x y => x.1 == y.1) (6, 0) 1 2 3).1 rfl (by decide)

/-- C1: the pure final-props selector after its first invocation.  When
neither ownProps nor state changed, the cached mergedProps is returned
and no mapping or merge function runs (but the cached state and
ownProps are still replaced by the new references).  When only the
state changed, mapStateToProps runs once and mergeProps runs exactly
when areStatePropsEqual reports a difference.  When only ownProps
changed, each map function runs exactly when its dependsOnOwnProps flag
is true and mergeProps runs unconditionally.  When both changed,
mapStateToProps runs unconditionally, mapDispatchToProps only under its
flag, and mergeProps runs. -/
theorem pure_selector_invalidation_matrix (env : PureSelectorEnv σ π sp dp mp δ)
    (c : SelCache σ π sp dp mp) (s1 : σ) (p1 : π) :
    (env.areOwnPropsEqual p1 c.ownProps = true → env.areStatesEqual s1 c.state = true →
      pureFinalPropsSelector env (some c) s1 p1 =
        (c.mergedProps, some { c with state := s1, ownProps := p1 }, ⟨0, 0, 0⟩)) ∧
    (env.areOwnPropsEqual p1 c.ownProps = true → env.areStatesEqual s1 c.state = false →
      (pureFinalPropsSelector env (some c) s1 p1).2.2 =
        ⟨1, 0, if env.areStatePropsEqual (env.mapStateToProps.run s1 p1) c.stateProps
          then 0 else 1⟩ ∧
      (pureFinalPropsSelector env (some c) s1 p1).1 =
        (if env.areStatePropsEqual (env.mapStateToProps.run s1 p1) c.stateProps
          then c.mergedProps
          else env.mergeProps (env.mapStateToProps.run s1 p1) c.dispatchProps p1)) ∧
    (env.areOwnPropsEqual p1 c.ownProps = false → env.areStatesEqual s1 c.state = true →
      (pureFinalPropsSelector env (some c) s1 p1).2.2 =
        ⟨if env.mapStateToProps.dependsOnOwnProps then 1 else 0,
          if env.mapDispatchToProps.dependsOnOwnProps then 1 else 0, 1⟩) ∧
    (env.areOwnPropsEqual p1 c.ownProps = false → env.areStatesEqual s1 c.state = false →
      (pureFinalPropsSelector env (some c) s1 p1).2.2 =
        ⟨1, if env.mapDispatchToProps.dependsOnOwnProps then 1 else 0, 1⟩) := by
  refine ⟨fun h1 h2 => ?_, fun h1 h2 => ?_, fun h1 h2 => ?_, fun h1 h2 => ?_⟩
  · simp [pureFinalPropsSelector, handleSubsequentCalls, h1, h2]
  · cases heq : env.areStatePropsEqual (env.mapStateToProps.run s1 p1) c.stateProps <;>
      simp [pureFinalPropsSelector, handleSubsequentCalls, handleNewState, h1, h2, heq]
  · cases hs : env.mapStateToProps.dependsOnOwnProps <;>
      cases hd : env.mapDispatchToProps.dependsOnOwnProps <;>
      simp [pureFinalPropsSelector, handleSubsequentCalls, handleNewProps, h1, h2, hs, hd]
  · cases hd : env.mapDispatchToProps.dependsOnOwnProps <;>
      simp [pureFinalPropsSelector, handleSubsequentCalls, handleNewPropsAndNewState,
        h1, h2, hd]

theorem pure_selector_invalidation_matrix_witness :
    (pureFinalPropsSelector envW (some cW) 5 7).2.2 = ⟨1, 0, 1⟩ :=
  (pure_selector_invalidation_matrix envW cW 5 7).2.2.2 (by decide) (by decide)

/-- C2: under a store notification with a committed selector whose
evaluation succeeds, checkForUpdates leaves the refs untouched and
requests no re-render when the new value is equalityFn-equal to the
cached one, and otherwise replaces the cached value by the new one and
requests exactly one re-render. -/
theorem checkForUpdates_propagation (equalityFn : V → Option V → Bool)
    (refs : ConsumerRefs σ V) (sel : Selector σ V) (storeState : σ) (v : V)
    (hsel : refs.latestSelector = some sel) (hok : sel.fn storeState = .ok v) :
    (equalityFn v refs.latestSelectedState = true →
      checkForUpdates equalityFn refs storeState = (refs, 0)) ∧
    (equalityFn v refs.latestSelectedState = false →
      checkForUpdates equalityFn refs storeState =
        ({ refs with latestSelectedState := some v }, 1)) := by
  constructor <;> intro h <;> simp [checkForUpdates, hsel, hok, h]

theorem checkForUpdates_propagation_witness :
    checkForUpdates (fun a b => b == some a) refsW 2 = (refsW, 0) :=
  (checkForUpdates_propagation (fun a b => b == some a) refsW selW 2 3 rfl rfl).1
    (by decide)

/-- C9: when the committed selector throws during checkForUpdates, the
error is stored in latestSubscriptionCallbackError, the cached selected
value is untouched, and one re-render is still requested; the stored
error then forces the next render pass to invoke the selector again. -/
theorem checkForUpdates_error_capture (equalityFn : V → Option V → Bool)
    (refs : ConsumerRefs σ V) (sel : Selector σ V) (storeState : σ) (e : JsError)
    (hsel : refs.latestSelector = some sel) (herr : sel.fn storeState = .error e) :
    checkForUpdates equalityFn refs storeState =
      ({ refs with latestSubscriptionCallbackError := some e }, 1) ∧
    ∀ (sel2 : Selector σ V) (st2 : σ),
      (useSelectorRead { refs with latestSubscriptionCallbackError := some e }
        sel2 st2).2 = 1 := by
  constructor
  · simp [checkForUpdates, hsel, herr]
  · intro sel2 st2
    cases hfn : sel2.fn st2 <;> simp [useSelectorRead, hfn]

theorem checkForUpdates_error_capture_witness :
    checkForUpdates (fun a b => b == some a) refsThrowW 2 =
      ({ refsThrowW with latestSubscriptionCallbackError := some ⟨"boom", "boomstack"⟩ },
        1) :=
  (checkForUpdates_error_capture (fun a b => b == some a) refsThrowW selThrowW 2
    ⟨"boom", "boomstack"⟩ rfl rfl).1

/-- C3: the render-pass read returns the cached selected value without
invoking the selector when the selector reference matches the committed
one and no subscription callback error is stored, and it invokes the
selector on the store state exactly when the reference changed or such
an error is stored. -/
theorem useSelectorRead_caching (refs : ConsumerRefs σ V) (sel : Selector σ V)
    (storeState : σ) :
    (selectorChanged refs sel = false → refs.latestSubscriptionCallbackError = none →
      useSelectorRead refs sel storeState = (.ok refs.latestSelectedState, 0)) ∧
    ((useSelectorRead refs sel storeState).2 = 1 ↔
      (selectorChanged refs sel = true ∨ refs.latestSubscriptionCallbackError ≠ none)) := by
  constructor
  · intro h1 h2
    simp [useSelectorRead, h1, h2]
  · cases hch : selectorChanged refs sel <;>
      cases herr : refs.latestSubscriptionCallbackError <;>
      simp [useSelectorRead, hch, herr] <;>
      cases hfn : sel.fn storeState <;> simp [hfn]

theorem useSelectorRead_caching_witness :
    useSelectorRead refsW selW 2 = (.ok (some 3), 0) :=
  (useSelectorRead_caching refsW selW 2).1 (by decide) rfl

/-- C8: when the selector throws during the render-pass read, the hook
throws an Error whose message contains the thrown error's message, and
when a subscription callback error is stored, the message additionally
contains that stored error's stack. -/
theorem useSelectorRead_error_correlation (refs : ConsumerRefs σ V)
    (sel : Selector σ V) (storeState : σ) (e : JsError)
    (herr : sel.fn storeState = .error e)
    (hcond : selectorChanged refs sel = true ∨
      refs.latestSubscriptionCallbackError.isSome = true) :
    ∃ msg, useSelectorRead refs sel storeState = (.error msg, 1) ∧
      (∃ a b, msg = a ++ e.message ++ b) ∧
      (∀ p, refs.latestSubscriptionCallbackError = some p →
        ∃ a b, msg = a ++ p.stack ++ b) := by
  have hc : (selectorChanged refs sel ||
      refs.latestSubscriptionCallbackError.isSome) = true := by
    rcases hcond with h | h <;> simp [h]
  refine ⟨renderErrorMessage e refs.latestSubscriptionCallbackError, ?_, ?_, ?_⟩
  · simp [useSelectorRead, hc, herr]
  · cases hp : refs.latestSubscriptionCallbackError with
    | none =>
      exact ⟨"An error occured while selecting the store state: ", ".",
        by simp [renderErrorMessage, hp]⟩
    | some p =>
      refine ⟨"An error occured while selecting the store state: ",
        "." ++ "\nThe error may be correlated with this previous error:\n" ++
          p.stack ++ "\n\nOriginal stack trace:", ?_⟩
      simp only [renderErrorMessage, hp, string_append_assoc]
  · intro p hp
    exact ⟨"An error occured while selecting the store state: " ++ e.message ++ "." ++
        "\nThe error may be correlated with this previous error:\n",
      "\n\nOriginal stack trace:", by simp [renderErrorMessage, hp]⟩

theorem useSelectorRead_error_correlation_witness :
    ∃ msg, useSelectorRead refsPrevErrW selThrowW 2 = (.error msg, 1) ∧
      (∃ a b, msg = a ++ "boom" ++ b) ∧
      (∀ p, refsPrevErrW.latestSubscriptionCallbackError = some p →
        ∃ a b, msg = a ++ p.stack ++ b) :=
  useSelectorRead_error_correlation refsPrevErrW selThrowW 2 ⟨"boom", "boomstack"⟩
    rfl (Or.inr rfl)

/-- C5: a wrapped mapToProps that returns a function on the adapter's
first invocation is called exactly once during that invocation, the
returned function is called exactly once, the proxy's active function
becomes the returned function with its dependsOnOwnProps recomputed,
and every call against the resolved proxy invokes only the resolved
function, exactly once, leaving the proxy state unchanged. -/
theorem detectFactory_resolution (w : OuterFn α β π) (g : InnerFn α β π)
    (sd : α) (op : π)
    (h : w.run sd (if getDependsOnOwnProps w.flag w.arity then some op else none) =
      .fn g) :
    mapToPropsProxy (initProxySelector w) sd op =
      (.props (g.run sd (if getDependsOnOwnProps g.flag g.arity then some op else none)),
        ⟨.innerFn g, getDependsOnOwnProps g.flag g.arity, w⟩, ⟨1, 1⟩) ∧
    ∀ (q : MapToPropsProxyState α β π) (sd2 : α) (op2 : π),
      q.mapToProps = .innerFn g →
      mapToPropsProxy q sd2 op2 =
        (.props (g.run sd2 (if q.dependsOnOwnProps then some op2 else none)), q,
          ⟨0, 1⟩) := by
  constructor
  · simp [mapToPropsProxy, initProxySelector, detectFactoryAndVerify, h]
  · intro q sd2 op2 hq
    simp [mapToPropsProxy, hq]

theorem detectFactory_resolution_witness :
    mapToPropsProxy (initProxySelector wFactoryW) 3 4 =
      (.props 30, ⟨.innerFn gInnerW, false, wFactoryW⟩, ⟨1, 1⟩) :=
  (detectFactory_resolution wFactoryW gInnerW 3 4 rfl).1

/-- C10, counterexample: a freshly created proxy around an arity-1
mapToProps with no explicit flag does not pass ownProps to the wrapped
function on the first invocation, because detectFactoryAndVerify
recomputes dependsOnOwnProps from the wrapped function before the
re-entrant proxy call.  The recorder returns the second argument it
received: the result is none, not some 42. -/
theorem proxy_first_call_not_always_ownprops :
    (mapToPropsProxy (initProxySelector arityOneRecorder) 0 42).1 =
      MapResult.props none ∧
    MapResult.props (α := Nat) (β := Option Nat) (π := Nat) none ≠
      MapResult.props (some 42) := by
  constructor
  · rfl
  · intro h
    simp at h

/-- C10, amended: a fresh proxy has dependsOnOwnProps true (so that
detectFactoryAndVerify itself receives ownProps); during the first
invocation the wrapped function receives ownProps exactly when
getDependsOnOwnProps of the wrapped function is true, and when a
factory is detected the factory result receives ownProps exactly when
its own recomputed flag is true; after the first invocation the proxy's
dependsOnOwnProps equals getDependsOnOwnProps of the resolved function,
and every later call passes ownProps exactly when that flag is true. -/
theorem proxy_dependsOnOwnProps_invariant (w : OuterFn α β π) (sd : α) (op : π) :
    (initProxySelector w).dependsOnOwnProps = true ∧
    (∀ b, w.run sd (if getDependsOnOwnProps w.flag w.arity then some op else none) =
        .props b →
      mapToPropsProxy (initProxySelector w) sd op =
        (.props b, ⟨.outerFn w, getDependsOnOwnProps w.flag w.arity, w⟩, ⟨1, 0⟩)) ∧
    (∀ g, w.run sd (if getDependsOnOwnProps w.flag w.arity then some op else none) =
        .fn g →
      (mapToPropsProxy (initProxySelector w) sd op).2.1 =
        ⟨.innerFn g, getDependsOnOwnProps g.flag g.arity, w⟩) ∧
    (∀ (q : MapToPropsProxyState α β π) (f : OuterFn α β π),
      q.mapToProps = .outerFn f →
      mapToPropsProxy q sd op =
        (f.run sd (if q.dependsOnOwnProps then some op else none), q, ⟨1, 0⟩)) ∧
    (∀ (q : MapToPropsProxyState α β π) (g : InnerFn α β π),
      q.mapToProps = .innerFn g →
      mapToPropsProxy q sd op =
        (.props (g.run sd (if q.dependsOnOwnProps then some op else none)), q,
          ⟨0, 1⟩)) := by
  refine ⟨rfl, fun b hb => ?_, fun g hg => ?_, fun q f hq => ?_, fun q g hq => ?_⟩
  · simp [mapToPropsProxy, initProxySelector, detectFactoryAndVerify, hb]
  · simp [mapToPropsProxy, initProxySelector, detectFactoryAndVerify, hg]
  · simp [mapToPropsProxy, hq]
  · simp [mapToPropsProxy, hq]

theorem proxy_dependsOnOwnProps_invariant_witness :
    mapToPropsProxy (initProxySelector arityOneRecorder) 0 42 =
      (.props none, ⟨.outerFn arityOneRecorder, false, arityOneRecorder⟩, ⟨1, 0⟩) :=
  (proxy_dependsOnOwnProps_invariant arityOneRecorder 0 42).2.1 none rfl

end ReactRedux
